import Mathlib

/-!
Shallow embedding of the balance reconciliation core of `baltracker`
(`src/balance_tracker/api_req.py` and `src/balance_tracker/balances.py`).

Python `Decimal` quantities are modelled as exact rationals (`ℚ`); Python
dicts are modelled as insertion-ordered association lists; Python exceptions
(`DivisionByZero`, `AttributeError`, `KeyError`) are modelled with `Except`
over an explicit error type.
-/

/-- Python exceptions that the modelled code can raise. -/
inductive PyErr where
  | divisionByZero
  | attributeError
  | keyError
  deriving DecidableEq, Repr

/-- Association-list lookup, modelling Python `dict.get` (keys are unique in
real dicts; lookup returns the first match). -/
def alookup {α : Type} : List (String × α) → String → Option α
  | [], _ => none
  | (k, v) :: rest, key => if k = key then some v else alookup rest key

/-- Association-list update, modelling Python `d[k] = v`: replace in place if
the key is present (keeping its position), otherwise append. -/
def aset {α : Type} : List (String × α) → String → α → List (String × α)
  | [], k, v => [(k, v)]
  | (k', v') :: rest, k, v =>
      if k' = k then (k', v) :: rest else (k', v') :: aset rest k v

/-- The `TokenInfo` dataclass of `api_req.py`.  The `dex` field is NOT a
declared dataclass field in the source; it models a dynamically-set Python
attribute (`info.dex = ...` in `balances.py`), so it is an `Option` that is
`none` while the attribute is absent.  Reading an absent attribute raises
`AttributeError` (see `TokenInfo.getDexAttr`). -/
structure TokenInfo where
  address : String
  name : String
  symbol : String
  chain : String
  balances : List (String × ℚ)
  price : ℚ := 0
  liquidity : ℚ := 0
  market_cap : ℚ := 0
  link : String := ""
  dex : Option String := none
  deriving DecidableEq, Repr

/-- Cached property `TokenInfo.balance`: exact sum of all wallet balances. -/
def TokenInfo.balance (t : TokenInfo) : ℚ :=
  (t.balances.map Prod.snd).sum

/-- Cached property `TokenInfo.value = balance * price`. -/
def TokenInfo.value (t : TokenInfo) : ℚ :=
  t.balance * t.price

/-- Cached property `TokenInfo.real_value`: slippage-adjusted value.  Follows
the source line by line: if `liquidity == 0` return `value`; otherwise
`available_liq = liquidity / 2`,
`slippage = (1 - (available_liq - value) / available_liq) / 2`,
`real_value = value * (1 - slippage)`. -/
def TokenInfo.real_value (t : TokenInfo) : ℚ :=
  if t.liquidity = 0 then t.value
  else
    let available_liq := t.liquidity / 2
    let slippage := (1 - (available_liq - t.value) / available_liq) / 2
    t.value * (1 - slippage)

/-- Reading the dynamically-set `dex` attribute: raises `AttributeError`
when the attribute was never assigned. -/
def TokenInfo.getDexAttr (t : TokenInfo) : Except PyErr String :=
  match t.dex with
  | some d => .ok d
  | none => .error .attributeError

/-- Python `Decimal` division: raises `DivisionByZero` on a zero divisor. -/
def decDiv (a b : ℚ) : Except PyErr ℚ :=
  if b = 0 then .error .divisionByZero else .ok (a / b)

/-- The five `init=False` fields of the `BalanceUpdate` dataclass
(`balances.py`).  A field that `__post_init__` never assigns is `none`;
reading such a field raises `AttributeError` (see `readAttr`). -/
structure DeltaFields where
  value_change : Option ℚ := none
  value_change_pct : Option ℚ := none
  balance_change : Option ℚ := none
  balance_change_pct : Option ℚ := none
  price_change_pct : Option ℚ := none
  deriving DecidableEq, Repr

/-- Reading a possibly-unassigned dataclass field: `AttributeError` if the
field was never assigned. -/
def readAttr (f : Option ℚ) : Except PyErr ℚ :=
  match f with
  | some v => .ok v
  | none => .error .attributeError

/-- `BalanceUpdate.__post_init__` (`balances.py` lines 67-95).  `old`/`new`
are `False`-sentinels (here `none`) or `TokenInfo`s (always truthy in
Python).  In the both-present branch the source computes `balance_change`
and `balance_change_pct` (dividing by `old.balance`, unguarded) before the
price cases; any `Decimal` division by zero raises. -/
def post_init (old new : Option TokenInfo) : Except PyErr DeltaFields :=
  match old, new with
  | none, some n =>
      .ok { value_change := some n.real_value
            value_change_pct := some 100
            balance_change := some n.balance
            balance_change_pct := some 100
            price_change_pct := some 0 }
  | some o, none =>
      .ok { value_change := some (-1 * o.real_value)
            value_change_pct := some (-100)
            balance_change := some (-1 * o.balance)
            price_change_pct := some 0 }
  | some o, some n => do
      let bc := n.balance - o.balance
      let bcp ← decDiv (100 * (n.balance - o.balance)) o.balance
      if o.price = 0 ∧ n.price = 0 then
        .ok { value_change := some 0
              value_change_pct := some 100
              balance_change := some bc
              balance_change_pct := some bcp
              price_change_pct := some 0 }
      else if o.price = 0 then
        .ok { value_change := some n.real_value
              value_change_pct := some 100
              balance_change := some bc
              balance_change_pct := some bcp
              price_change_pct := some (100 * (n.price - o.price)) }
      else do
        let vcp ← decDiv (100 * (n.real_value - o.real_value)) o.real_value
        let pcp ← decDiv (100 * (n.price - o.price)) o.price
        .ok { value_change := some (n.real_value - o.real_value)
              value_change_pct := some vcp
              balance_change := some bc
              balance_change_pct := some bcp
              price_change_pct := some pcp }
  | none, none => .ok {}

/-! ## Multi-source balance aggregator (`api_req.py`) -/

/-- One token holding in a Moralis Solana portfolio response. -/
structure SolTokenData where
  mint : String
  name : String
  symbol : String
  amount : ℚ
  deriving DecidableEq, Repr

/-- One wallet's Moralis Solana portfolio response: token list plus the
native SOL balance. -/
structure SolWalletData where
  tokens : List SolTokenData
  nativeBalance : ℚ
  deriving DecidableEq, Repr

/-- One token entry of a Moralis EVM wallet-tokens response. -/
structure EvmTokenData where
  token_address : String
  native_token : Bool
  name : String
  symbol : String
  balance_formatted : ℚ
  deriving DecidableEq, Repr

/-- One coin object of a Blockberry Sui response. -/
structure SuiCoinData where
  coinType : String
  coinName : String
  coinSymbol : String
  totalBalance : ℚ
  decimals : ℕ
  deriving DecidableEq, Repr

/-- The wrapped-SOL sentinel address used for the Solana native asset. -/
def SOL_ADDR : String := "so11111111111111111111111111111111111111112"

/-- Sui balance normalization: `totalBalance / 10 ** decimals`. -/
def sui_coin_balance (c : SuiCoinData) : ℚ :=
  c.totalBalance / 10 ^ c.decimals

/-- One iteration of the coin loop in `get_sui_balances`: zero balances are
dropped; a new address creates an entry, an existing one gets the wallet's
balance set. -/
def addSuiCoin (wallet : String) (acc : List (String × TokenInfo))
    (c : SuiCoinData) : List (String × TokenInfo) :=
  let balance := sui_coin_balance c
  if balance = 0 then acc
  else
    match alookup acc c.coinType with
    | none =>
        aset acc c.coinType
          { address := c.coinType, name := c.coinName, symbol := c.coinSymbol
            chain := "sui", balances := [(wallet, balance)] }
    | some info =>
        aset acc c.coinType { info with balances := aset info.balances wallet balance }

/-- The merge part of `get_sui_balances` (`api_req.py` lines 107-127),
folding over the per-wallet responses. -/
def get_sui_balances (responses : List (String × List SuiCoinData)) :
    List (String × TokenInfo) :=
  responses.foldl (fun acc wr => wr.2.foldl (addSuiCoin wr.1) acc) []

/-- One iteration of the Solana token loop in `get_token_balances`
(lines 282-298): zero amounts are dropped. -/
def addSolToken (wallet : String) (acc : List (String × TokenInfo))
    (t : SolTokenData) : List (String × TokenInfo) :=
  if t.amount = 0 then acc
  else
    match alookup acc t.mint with
    | none =>
        aset acc t.mint
          { address := t.mint, name := t.name, symbol := t.symbol
            chain := "solana", balances := [(wallet, t.amount)] }
    | some info =>
        aset acc t.mint { info with balances := aset info.balances wallet t.amount }

/-- The native-SOL step of `get_token_balances` (lines 300-311): the native
balance is written WITHOUT a zero check. -/
def addSolNative (wallet : String) (nat : ℚ) (acc : List (String × TokenInfo)) :
    List (String × TokenInfo) :=
  match alookup acc SOL_ADDR with
  | none =>
      aset acc SOL_ADDR
        { address := SOL_ADDR, name := "Solana", symbol := "SOL"
          chain := "solana", balances := [(wallet, nat)] }
  | some info =>
      aset acc SOL_ADDR { info with balances := aset info.balances wallet nat }

/-- Processing one Solana wallet's response: all tokens, then the native
balance. -/
def processSolWallet (acc : List (String × TokenInfo))
    (wr : String × SolWalletData) : List (String × TokenInfo) :=
  addSolNative wr.1 wr.2.nativeBalance (wr.2.tokens.foldl (addSolToken wr.1) acc)

/-- One iteration of the EVM token loop in `get_token_balances`
(lines 313-330): native tokens use the chain id as address; zero balances
are dropped. -/
def addEvmToken (wallet chain : String) (acc : List (String × TokenInfo))
    (t : EvmTokenData) : List (String × TokenInfo) :=
  let addr := if t.native_token then chain else t.token_address
  if t.balance_formatted = 0 then acc
  else
    match alookup acc addr with
    | none =>
        aset acc addr
          { address := addr, name := t.name, symbol := t.symbol
            chain := chain, balances := [(wallet, t.balance_formatted)] }
    | some info =>
        aset acc addr { info with balances := aset info.balances wallet t.balance_formatted }

/-- The wallet-deletion pass of `get_token_balances` (lines 261-265): each
wallet flagged for refetch on a chain is deleted from the balances of every
old token on that chain. -/
def delete_flagged (update_required : List (String × List String))
    (t : TokenInfo) : TokenInfo :=
  { t with balances :=
      t.balances.filter (fun wb => !((alookup update_required t.chain).getD []).contains wb.1) }

/-- The carry-forward pass of `get_token_balances` (lines 267-270): old
tokens with some remaining balances on a chain present in the update map are
kept as-is. -/
def carry_old (old : List (String × TokenInfo))
    (update_required : List (String × List String)) : List (String × TokenInfo) :=
  old.foldl
    (fun b kt =>
      let t := delete_flagged update_required kt.2
      if t.balances ≠ [] ∧ (alookup update_required t.chain).isSome
      then aset b t.address t else b)
    []

/-- The merge part of `get_token_balances` (lines 261-332): carried-forward
old EVM entries, then the Solana responses, then the fetched EVM responses. -/
def get_token_balances (old : List (String × TokenInfo))
    (update_required : List (String × List String))
    (sol_responses : List (String × SolWalletData))
    (evm_responses : List ((String × String) × List EvmTokenData)) :
    List (String × TokenInfo) :=
  let b0 := carry_old old update_required
  let b1 := sol_responses.foldl processSolWallet b0
  evm_responses.foldl (fun acc wcd => wcd.2.foldl (addEvmToken wcd.1.1 wcd.1.2) acc) b1

/-- Python dict merge `{**sui_balances, **token_balances}` in
`get_balance_update`: the second dict's entries override the first's. -/
def merge_all (sui tok : List (String × TokenInfo)) : List (String × TokenInfo) :=
  tok.foldl (fun acc kt => aset acc kt.1 kt.2) sui

/-! ## Change-detection filter (`get_native_change_evm`, `api_req.py`) -/

/-- Python `previous_responses.get(chain, \x7b\x7d).get(wallet, False)`:
nested lookup, absent keys give `none` (the `False` default). -/
def lookup2 (m : List (String × List (String × String))) (chain w : String) :
    Option String :=
  alookup ((alookup m chain).getD []) w

/-- The per-wallet flag decision of `get_native_change_evm`
(lines 204-209).  `not x` in the first branch is Python truthiness: absent
(`False`) and the empty string are both falsy, so both flag the wallet.
The `elif` indexes `responses[chain][wallet]` directly and raises
`KeyError` when the key is missing. -/
def nativeFlag (responses previous : List (String × List (String × String)))
    (chain w : String) : Except PyErr Bool :=
  match lookup2 previous chain w with
  | none => .ok true
  | some v =>
      if v = "" then .ok true
      else
        match alookup responses chain with
        | none => .error .keyError
        | some rc =>
            match alookup rc w with
            | none => .error .keyError
            | some cur => .ok (cur ≠ v)

/-- The inner wallet loop of `get_native_change_evm` for one chain: collects
the flagged wallets in order. -/
def flagsFor (responses previous : List (String × List (String × String)))
    (chain : String) : List String → Except PyErr (List String)
  | [] => .ok []
  | w :: ws => do
      let b ← nativeFlag responses previous chain w
      let rest ← flagsFor responses previous chain ws
      .ok (if b then w :: rest else rest)

/-- The decision part of `get_native_change_evm` (`api_req.py` lines
199-211): the configured EVM wallets are lower-cased, then every chain gets
its list of flagged wallets. -/
def get_native_change_evm (evm_wallets evm_chains : List String)
    (responses previous : List (String × List (String × String))) :
    Except PyErr (List (String × List String)) :=
  let lw := evm_wallets.map String.toLower
  evm_chains.foldlM
    (fun acc chain => do
      let fs ← flagsFor responses previous chain lw
      pure (aset acc chain fs))
    []

/-! ## Best-pair selection (`find_token`, `api_req.py`) -/

/-- A Dexscreener trading pair, restricted to the fields `find_token`
inspects.  `liquidity_usd`/`volume_h24` model `x.get("liquidity",
\x7b\x7d).get("usd", Decimal(0))` and `x.get("volume", \x7b\x7d).get("h24",
Decimal(0))`: a missing field defaults to zero. -/
structure DexPair where
  baseTokenAddress : String
  liquidity_usd : Option ℚ := none
  volume_h24 : Option ℚ := none
  deriving DecidableEq, Repr

/-- `get_volume_usd` of `api_req.py`. -/
def get_volume_usd (x : DexPair) : ℚ := x.volume_h24.getD 0

/-- `get_liquidity_usd` of `api_req.py`. -/
def get_liquidity_usd (x : DexPair) : ℚ := x.liquidity_usd.getD 0

/-- `is_ca` of `api_req.py`: case-insensitive base-token address match. -/
def is_ca (x : DexPair) (contract : String) : Bool :=
  x.baseTokenAddress.toLower = contract.toLower

/-- Python `max(list, key=k)`: returns the FIRST element with maximal key
(a later element replaces the current best only when strictly greater). -/
def pymaxAux (key : DexPair → ℚ) (best : DexPair) : List DexPair → DexPair
  | [] => best
  | x :: xs => pymaxAux key (if key x > key best then x else best) xs

/-- `find_token` of `api_req.py` (lines 380-392): filter the pairs whose
base token matches the address; pick the pair with maximal USD liquidity;
if its liquidity is zero fall back to the pair with maximal 24h volume.
Returns `none` for the empty-dict result when nothing matches. -/
def find_token (pair_info : List DexPair) (address : String) : Option DexPair :=
  match pair_info.filter (fun x => is_ca x address) with
  | [] => none
  | p :: ps =>
      let max_liquidity := pymaxAux get_liquidity_usd p ps
      if get_liquidity_usd max_liquidity = 0 then
        some (pymaxAux get_volume_usd p ps)
      else some max_liquidity

/-! ## Post-enrichment correction pass (`gen_bal_update`, `balances.py`) -/

/-- The per-token body of the correction loop in `gen_bal_update`
(`balances.py` lines 188-204).  Tokens with price zero take the previous
snapshot's price/liquidity/market_cap (unchanged when there is no previous
entry).  Other tokens with a previous entry compare `prev_info.dex` to
`info.dex`; reading the never-assigned `dex` attribute raises
`AttributeError`. -/
def correct_info (previous_balance : List (String × TokenInfo))
    (address : String) (info : TokenInfo) : Except PyErr TokenInfo :=
  if info.price = 0 then
    .ok { info with
          price := ((alookup previous_balance address).getD info).price
          liquidity := ((alookup previous_balance address).getD info).liquidity
          market_cap := ((alookup previous_balance address).getD info).market_cap }
  else
    match alookup previous_balance address with
    | none => .ok info
    | some prev_info => do
        let pd ← prev_info.getDexAttr
        let cd ← info.getDexAttr
        if pd ≠ cd ∧ prev_info.liquidity > info.liquidity then
          .ok { info with
                price := prev_info.price, liquidity := prev_info.liquidity
                market_cap := prev_info.market_cap, dex := prev_info.dex }
        else .ok info

/-- The whole correction loop of `gen_bal_update` over the enriched ledger
(an exception from any token aborts the pass). -/
def correction_pass (previous_balance : List (String × TokenInfo)) :
    List (String × TokenInfo) → Except PyErr (List (String × TokenInfo))
  | [] => .ok []
  | (a, i) :: rest => do
      let i' ← correct_info previous_balance a i
      let rest' ← correction_pass previous_balance rest
      .ok ((a, i') :: rest')

/-! ## Snapshot persistence (`save_balances` / `load_previous_balance`) -/

/-- A serialized decimal string, modelled as its exact content: an integer
coefficient together with a power-of-ten denominator exponent (Python
`str(Decimal)` prints the exact value; `Decimal(s)` re-reads it exactly).
`decSerialize` models `str`, `decParse` models `Decimal`. -/
def decSerialize (q : ℚ) : ℤ × ℕ :=
  (q.num * ((10 ^ q.den / q.den : ℕ) : ℤ), q.den)

/-- Parsing a serialized decimal string back into a `Decimal` value. -/
def decParse (p : ℤ × ℕ) : ℚ :=
  (p.1 : ℚ) / (10 : ℚ) ^ p.2

/-- A rational is a `Decimal` value (finite decimal) when its reduced
denominator divides a power of ten; `10 ^ den` is always a large enough
power. -/
def IsDecimal (q : ℚ) : Prop := q.den ∣ 10 ^ q.den

instance (q : ℚ) : Decidable (IsDecimal q) :=
  inferInstanceAs (Decidable (_ ∣ _))

/-- `TokenInfo.to_json_dict` (`api_req.py` lines 57-63): `dataclasses.asdict`
keeps the declared fields (so no `dex`) and the decimal fields are
stringified. -/
structure TokenJson where
  address : String
  name : String
  symbol : String
  chain : String
  balances : List (String × (ℤ × ℕ))
  price : ℤ × ℕ
  liquidity : ℤ × ℕ
  market_cap : ℤ × ℕ
  link : String
  deriving DecidableEq, Repr

/-- `TokenInfo.to_json_dict`: serialize every decimal field. -/
def TokenInfo.to_json_dict (t : TokenInfo) : TokenJson :=
  { address := t.address, name := t.name, symbol := t.symbol, chain := t.chain
    balances := t.balances.map (fun kv => (kv.1, decSerialize kv.2))
    price := decSerialize t.price
    liquidity := decSerialize t.liquidity
    market_cap := decSerialize t.market_cap
    link := t.link }

/-- The per-entry part of `load_previous_balance` (`balances.py` lines
162-168): parse the decimal fields back and rebuild `TokenInfo(**v)` (the
undeclared `dex` attribute is absent on a fresh instance). -/
def tokenFromJson (j : TokenJson) : TokenInfo :=
  { address := j.address, name := j.name, symbol := j.symbol, chain := j.chain
    balances := j.balances.map (fun kv => (kv.1, decParse kv.2))
    price := decParse j.price
    liquidity := decParse j.liquidity
    market_cap := decParse j.market_cap
    link := j.link }

/-- `save_balances` (`balances.py` lines 148-151): serialize every entry. -/
def save_balances (balances : List (String × TokenInfo)) :
    List (String × TokenJson) :=
  balances.map (fun kt => (kt.1, kt.2.to_json_dict))

/-- `load_previous_balance` (`balances.py` lines 154-168) applied to the
stored JSON object. -/
def load_previous_balance (j : List (String × TokenJson)) :
    List (String × TokenInfo) :=
  j.map (fun kj => (kj.1, tokenFromJson kj.2))

/-! ## Retry handlers (`api_req.py`) -/

/-- An HTTP response as far as the retry handlers inspect it. -/
structure Response where
  status : ℕ
  deriving DecidableEq, Repr

/-- Outcome of a request handler, run against the list of responses that
successive identical requests would return.  `slept` accumulates the
seconds spent in `time.sleep` backoffs; `exhausted` means the handler was
still retrying when the list ran out (the source retries unboundedly). -/
inductive ReqResult where
  | ok (r : Response) (slept : ℕ)
  | raised (code : ℕ) (slept : ℕ)
  | exhausted
  deriving DecidableEq, Repr

/-- `handle_sui_req` (`api_req.py` lines 69-83): 500/501/502/503 and 429
each sleep 60 seconds and retry; anything else goes through
`raise_for_status` (raises for status >= 400). -/
def handle_sui_req : List Response → ℕ → ReqResult
  | [], _ => .exhausted
  | r :: rest, s =>
      if r.status = 500 ∨ r.status = 501 ∨ r.status = 502 ∨ r.status = 503 then
        handle_sui_req rest (s + 60)
      else if r.status = 429 then handle_sui_req rest (s + 60)
      else if 400 ≤ r.status then .raised r.status s
      else .ok r s

/-- `handle_moralis_req` (`api_req.py` lines 152-162): only 500 and 503
sleep 60 seconds and retry; every other error status (429, 501, 502
included) raises immediately. -/
def handle_moralis_req : List Response → ℕ → ReqResult
  | [], _ => .exhausted
  | r :: rest, s =>
      if r.status = 500 ∨ r.status = 503 then handle_moralis_req rest (s + 60)
      else if 400 ≤ r.status then .raised r.status s
      else .ok r s

/-- `handle_dex_req` (`api_req.py` lines 335-348): 500/503 and 429 sleep 60
seconds and retry; 501 and 502 raise. -/
def handle_dex_req : List Response → ℕ → ReqResult
  | [], _ => .exhausted
  | r :: rest, s =>
      if r.status = 500 ∨ r.status = 503 then handle_dex_req rest (s + 60)
      else if r.status = 429 then handle_dex_req rest (s + 60)
      else if 400 ≤ r.status then .raised r.status s
      else .ok r s

/-- Outcome of `get_gecko_price`: `parsed r` means control reached the final
`Decimal(resp.json()[ticker]["usd"])` line with `resp = r`. -/
inductive GeckoResult where
  | parsed (r : Response) (slept : ℕ)
  | raised (code : ℕ) (slept : ℕ)
  | exhausted
  deriving DecidableEq, Repr

/-- `get_gecko_price` (`api_req.py` lines 130-149): 429 sleeps 60 seconds
and retries; 500/503 sleep 60 seconds and then FALL THROUGH to parsing the
same failed response (the source has no recursive call in that branch);
other statuses go through `raise_for_status`. -/
def get_gecko_price : List Response → ℕ → GeckoResult
  | [], _ => .exhausted
  | r :: rest, s =>
      if r.status = 429 then get_gecko_price rest (s + 60)
      else if r.status = 500 ∨ r.status = 503 then .parsed r (s + 60)
      else if 400 ≤ r.status then .raised r.status s
      else .parsed r s

/-! ## Derived predicates used by the verification below -/

/-- Every wallet balance in the list is nonzero. -/
def allNonzeroBal (l : List (String × ℚ)) : Prop := ∀ wb ∈ l, wb.2 ≠ 0

/-- Ledger-entry classification used for the aggregator invariant: an entry
is the Solana native sentinel, or is literally one of the carried-forward
entries (an entry of the carry pass output, copied as-is), or has at least
one nonzero wallet balance. -/
def GoodE (carried : List (String × TokenInfo)) (kt : String × TokenInfo) : Prop :=
  kt.1 = SOL_ADDR ∨ kt ∈ carried ∨ ∃ wb ∈ kt.2.balances, wb.2 ≠ 0

/-! ## Association-list lemmas -/

theorem alookup_mem {α : Type} {k : String} {v : α} :
    ∀ {l : List (String × α)}, alookup l k = some v → (k, v) ∈ l := by
  intro l
  induction l with
  | nil => intro h; simp [alookup] at h
  | cons hd tl ih =>
    intro h
    obtain ⟨k', v'⟩ := hd
    rw [alookup] at h
    split at h
    · next heq =>
      obtain rfl : v' = v := Option.some.inj h
      exact heq ▸ List.mem_cons_self _ _
    · exact List.mem_cons_of_mem _ (ih h)

theorem aset_mem {α : Type} {k : String} {v : α} :
    ∀ {l : List (String × α)} {x : String × α}, x ∈ aset l k v → x ∈ l ∨ x = (k, v) := by
  intro l
  induction l with
  | nil => intro x h; simp [aset] at h; simp [h]
  | cons hd tl ih =>
    intro x h
    obtain ⟨k', v'⟩ := hd
    rw [aset] at h
    split at h
    · next heq =>
      subst heq
      rcases List.mem_cons.mp h with h | h
      · exact Or.inr h
      · exact Or.inl (List.mem_cons_of_mem _ h)
    · rcases List.mem_cons.mp h with h | h
      · exact Or.inl (h ▸ List.mem_cons_self _ _)
      · rcases ih h with h | h
        · exact Or.inl (List.mem_cons_of_mem _ h)
        · exact Or.inr h

theorem aset_ne_nil {α : Type} (l : List (String × α)) (k : String) (v : α) :
    aset l k v ≠ [] := by
  cases l with
  | nil => simp [aset]
  | cons hd tl =>
    obtain ⟨k', v'⟩ := hd
    rw [aset]
    split <;> simp

theorem mem_aset_self {α : Type} (l : List (String × α)) (k : String) (v : α) :
    (k, v) ∈ aset l k v := by
  induction l with
  | nil => simp [aset]
  | cons hd tl ih =>
    obtain ⟨k', v'⟩ := hd
    rw [aset]
    split
    · next heq => rw [heq]; exact List.mem_cons_self _ _
    · exact List.mem_cons_of_mem _ ih

theorem alookup_aset {α : Type} (l : List (String × α)) (k k' : String) (v : α) :
    alookup (aset l k v) k' = if k = k' then some v else alookup l k' := by
  induction l with
  | nil => simp [aset, alookup]
  | cons hd tl ih =>
    obtain ⟨k0, v0⟩ := hd
    by_cases h0 : k0 = k
    · subst h0
      by_cases hk : k0 = k' <;> simp [aset, alookup, hk]
    · rw [aset, if_neg h0, alookup, ih, alookup]
      by_cases h1 : k0 = k'
      · have hk : k ≠ k' := fun hk => h0 (h1.trans hk.symm)
        simp [h1, hk]
      · simp [h1]

/-! ## C1: the Delta Calculator policy table -/

/-- C1: `BalanceUpdate` construction follows the policy table exactly: the
absent/present and present/absent rows unconditionally; the three
both-present rows under the preconditions making the unguarded `Decimal`
divisions defined (`old.balance` is divided first in every both-present
case, and `old.real_value` in the last row). -/
theorem C1_delta_policy_table (o n : TokenInfo) :
    post_init none (some n) =
      .ok { value_change := some n.real_value, value_change_pct := some 100,
            balance_change := some n.balance, balance_change_pct := some 100,
            price_change_pct := some 0 } ∧
    post_init (some o) none =
      .ok { value_change := some (-o.real_value), value_change_pct := some (-100),
            balance_change := some (-o.balance), balance_change_pct := none,
            price_change_pct := some 0 } ∧
    (o.balance ≠ 0 → o.price = 0 → n.price = 0 →
      post_init (some o) (some n) =
        .ok { value_change := some 0, value_change_pct := some 100,
              balance_change := some (n.balance - o.balance),
              balance_change_pct := some (100 * (n.balance - o.balance) / o.balance),
              price_change_pct := some 0 }) ∧
    (o.balance ≠ 0 → o.price = 0 → n.price ≠ 0 →
      post_init (some o) (some n) =
        .ok { value_change := some n.real_value, value_change_pct := some 100,
              balance_change := some (n.balance - o.balance),
              balance_change_pct := some (100 * (n.balance - o.balance) / o.balance),
              price_change_pct := some (100 * (n.price - o.price)) }) ∧
    (o.balance ≠ 0 → o.price ≠ 0 → o.real_value ≠ 0 →
      post_init (some o) (some n) =
        .ok { value_change := some (n.real_value - o.real_value),
              value_change_pct := some (100 * (n.real_value - o.real_value) / o.real_value),
              balance_change := some (n.balance - o.balance),
              balance_change_pct := some (100 * (n.balance - o.balance) / o.balance),
              price_change_pct := some (100 * (n.price - o.price) / o.price) }) := by
  refine ⟨rfl, ?_, ?_, ?_, ?_⟩
  · simp [post_init, neg_one_mul]
  · intro hb hop hnp
    simp [post_init, decDiv, hb, hop, hnp, Bind.bind, Except.bind]
  · intro hb hop hnp
    simp [post_init, decDiv, hb, hop, hnp, Bind.bind, Except.bind]
  · intro hb hop hrv
    simp [post_init, decDiv, hb, hop, hrv, Bind.bind, Except.bind]

/-- Witness for C1: the last policy-table row evaluated at a concrete pair
of entries (balances 2 and 4, prices 3 and 5, zero liquidity). -/
theorem C1_delta_policy_table_witness :
    post_init
      (some { address := "a", name := "x", symbol := "X", chain := "solana",
              balances := [("w", 2)], price := 3 })
      (some { address := "a", name := "x", symbol := "X", chain := "solana",
              balances := [("w", 4)], price := 5 }) =
      .ok { value_change := some 14, value_change_pct := some (700 / 3),
            balance_change := some 2, balance_change_pct := some 100,
            price_change_pct := some (200 / 3) } := by
  have h := (C1_delta_policy_table
      { address := "a", name := "x", symbol := "X", chain := "solana",
        balances := [("w", 2)], price := 3 }
      { address := "a", name := "x", symbol := "X", chain := "solana",
        balances := [("w", 4)], price := 5 }).2.2.2.2
      (by norm_num [TokenInfo.balance]) (by norm_num)
      (by norm_num [TokenInfo.real_value, TokenInfo.value, TokenInfo.balance])
  rw [h]
  norm_num [TokenInfo.real_value, TokenInfo.value, TokenInfo.balance]

/-! ## C2: real_value and the slippage formula -/

/-- C2: `real_value` equals `value = balance * price` (balance the exact sum
of the wallet balances) when `liquidity = 0`, and otherwise equals
`value * (1 - slippage)` with `available = liquidity / 2` and
`slippage = (1 - (available - value) / available) / 2`, with no clamping;
concretely, balance 100 at price 1/2 with liquidity 1000 gives exactly
95/2 = 47.5, a position three times the liquidity gives a negative
real_value, and (with no clamping) negative liquidity makes slippage
negative and `real_value > value`. -/
theorem C2_real_value (t : TokenInfo) :
    (t.liquidity = 0 → t.real_value = (t.balances.map Prod.snd).sum * t.price) ∧
    (t.liquidity ≠ 0 →
      t.real_value =
        t.value * (1 - (1 - (t.liquidity / 2 - t.value) / (t.liquidity / 2)) / 2)) ∧
    TokenInfo.real_value
      { address := "m", name := "x", symbol := "X", chain := "solana",
        balances := [("w", 100)], price := 1/2, liquidity := 1000 } = 95/2 ∧
    TokenInfo.real_value
      { address := "m", name := "x", symbol := "X", chain := "solana",
        balances := [("w", 3000)], price := 1, liquidity := 1000 } = -6000 ∧
    TokenInfo.value
      { address := "m", name := "x", symbol := "X", chain := "solana",
        balances := [("w", 1)], price := 1, liquidity := -1000 } <
    TokenInfo.real_value
      { address := "m", name := "x", symbol := "X", chain := "solana",
        balances := [("w", 1)], price := 1, liquidity := -1000 } := by
  refine ⟨?_, ?_, ?_, ?_, ?_⟩
  · intro h
    simp [TokenInfo.real_value, TokenInfo.value, TokenInfo.balance, h]
  · intro h
    simp [TokenInfo.real_value, h]
  · norm_num [TokenInfo.real_value, TokenInfo.value, TokenInfo.balance]
  · norm_num [TokenInfo.real_value, TokenInfo.value, TokenInfo.balance]
  · norm_num [TokenInfo.real_value, TokenInfo.value, TokenInfo.balance]

/-- Witness for C2: the zero-liquidity branch at a concrete entry in which
two wallets hold 3 and 4 at price 5. -/
theorem C2_real_value_witness :
    TokenInfo.real_value
      { address := "m", name := "x", symbol := "X", chain := "solana",
        balances := [("u", 3), ("w", 4)], price := 5 } =
      (List.map Prod.snd [(("u" : String), (3 : ℚ)), ("w", 4)]).sum * 5 :=
  (C2_real_value
    { address := "m", name := "x", symbol := "X", chain := "solana",
      balances := [("u", 3), ("w", 4)], price := 5 }).1 rfl

/-! ## C4: balance_change_pct -/

/-- Counterexample to C4: with old present (balance 2, price 3) and new
absent, `__post_init__` leaves `balance_change_pct` unassigned (`none`), so
the field is NOT defined in the new-absent case as the claim states. -/
theorem C4_cex_new_absent_unassigned :
    post_init
      (some { address := "a", name := "x", symbol := "X", chain := "solana",
              balances := [("w", 2)], price := 3 }) none =
      .ok { value_change := some (-6), value_change_pct := some (-100),
            balance_change := some (-2), balance_change_pct := none,
            price_change_pct := some 0 } := by
  norm_num [post_init, TokenInfo.real_value, TokenInfo.value, TokenInfo.balance]

/-- C4 amended: `balance_change_pct` is computed only in the both-present
case, where it equals `100 * (new.balance - old.balance) / old.balance`
whenever construction succeeds; the division is unguarded, so
`old.balance = 0` raises `DivisionByZero`; in the old-present/new-absent
case the field is left unassigned. -/
theorem C4_balance_change_pct (o n : TokenInfo) (df : DeltaFields) :
    (post_init (some o) (some n) = .ok df →
      df.balance_change_pct = some (100 * (n.balance - o.balance) / o.balance) ∧
      o.balance ≠ 0) ∧
    (o.balance = 0 → post_init (some o) (some n) = .error .divisionByZero) ∧
    (post_init (some o) none).map DeltaFields.balance_change_pct = .ok none := by
  refine ⟨?_, ?_, rfl⟩
  · intro h
    by_cases hb : o.balance = 0
    · simp [post_init, decDiv, hb, Bind.bind, Except.bind] at h
    · refine ⟨?_, hb⟩
      simp only [post_init, decDiv, hb, if_false, Bind.bind, Except.bind] at h
      split_ifs at h <;> simp_all <;> (subst h; rfl)
  · intro hb
    simp [post_init, decDiv, hb, Bind.bind, Except.bind]

/-- Witness for C4: the division-by-zero branch at a concrete old entry
with no wallet balances. -/
theorem C4_balance_change_pct_witness :
    post_init
      (some { address := "a", name := "x", symbol := "X", chain := "solana",
              balances := [], price := 3 })
      (some { address := "a", name := "x", symbol := "X", chain := "solana",
              balances := [("w", 4)], price := 5 }) =
      .error .divisionByZero :=
  (C4_balance_change_pct
    { address := "a", name := "x", symbol := "X", chain := "solana",
      balances := [], price := 3 }
    { address := "a", name := "x", symbol := "X", chain := "solana",
      balances := [("w", 4)], price := 5 } {}).2.1
    (by norm_num [TokenInfo.balance])

/-! ## C10: the both-absent case -/

/-- C10: constructing a `BalanceUpdate` with both `old` and `new` equal to
the `False` sentinel assigns none of the five delta fields, and reading any
of them raises `AttributeError`. -/
theorem C10_both_absent :
    post_init none none = .ok {} ∧
    readAttr (DeltaFields.value_change {}) = .error .attributeError ∧
    readAttr (DeltaFields.value_change_pct {}) = .error .attributeError ∧
    readAttr (DeltaFields.balance_change {}) = .error .attributeError ∧
    readAttr (DeltaFields.balance_change_pct {}) = .error .attributeError ∧
    readAttr (DeltaFields.price_change_pct {}) = .error .attributeError :=
  ⟨rfl, rfl, rfl, rfl, rfl, rfl⟩

/-! ## C3: the post-enrichment correction pass -/

/-- C3 (code bug): the price-zero carry-forward works as specified, but the
dex-guard branch is unreachable without an exception: `TokenInfo` declares
no `dex` field and nothing ever assigns one, so for any token with nonzero
resolver price and an existing previous entry the pass raises
`AttributeError` at `prev_info.dex`.  First conjunct: the failing input.
Second conjunct: the same pass on a price-zero token carries the previous
price/liquidity/market_cap forward as claimed. -/
theorem C3_dex_guard_attribute_error :
    correction_pass
      [("a", { address := "a", name := "p", symbol := "P", chain := "solana",
               balances := [("w", 5)], price := 2, liquidity := 50 })]
      [("a", { address := "a", name := "p", symbol := "P", chain := "solana",
               balances := [("w", 5)], price := 1, liquidity := 10 })] =
      .error .attributeError ∧
    correction_pass
      [("b", { address := "b", name := "q", symbol := "Q", chain := "sui",
               balances := [("u", 7)], price := 4, liquidity := 60, market_cap := 90 })]
      [("b", { address := "b", name := "q", symbol := "Q", chain := "sui",
               balances := [("u", 7)], price := 0 })] =
      .ok [("b", { address := "b", name := "q", symbol := "Q", chain := "sui",
                   balances := [("u", 7)], price := 4, liquidity := 60,
                   market_cap := 90 })] := by
  constructor
  · norm_num [correction_pass, correct_info, alookup, TokenInfo.getDexAttr,
      Bind.bind, Except.bind]
  · norm_num [correction_pass, correct_info, alookup, Bind.bind, Except.bind]

/-! ## C9: retry and backoff behavior -/

/-- Counterexample to C9: Dexscreener's handler raises immediately on 501
(the claim says 501 is retryable for every source), and the CoinGecko
lookup on 500 sleeps 60 seconds but does NOT retry: it falls through and
parses the failed 500 response instead of issuing the request again. -/
theorem C9_cex_not_all_retryable :
    handle_dex_req [{ status := 501 }, { status := 200 }] 0 = .raised 501 0 ∧
    get_gecko_price [{ status := 500 }, { status := 200 }] 0 =
      .parsed { status := 500 } 60 := by
  constructor <;> rfl

/-- C9 amended: per-handler retry policy.  `handle_sui_req` retries
429/500/501/502/503, each after a 60-second sleep, unboundedly;
`handle_moralis_req` retries only 500/503 and raises on 429 (quota) and on
501/502; `handle_dex_req` retries 429/500/503 and raises on 501/502;
`get_gecko_price` retries only on 429 — on 500/503 it sleeps 60 seconds and
then parses the same failed response without retrying. -/
theorem C9_retry_policy (r : Response) (rest : List Response) (s : ℕ) :
    ((r.status = 429 ∨ r.status = 500 ∨ r.status = 501 ∨ r.status = 502 ∨
        r.status = 503) →
      handle_sui_req (r :: rest) s = handle_sui_req rest (s + 60)) ∧
    ((r.status = 500 ∨ r.status = 503) →
      handle_moralis_req (r :: rest) s = handle_moralis_req rest (s + 60)) ∧
    ((r.status = 429 ∨ r.status = 501 ∨ r.status = 502) →
      handle_moralis_req (r :: rest) s = .raised r.status s) ∧
    ((r.status = 429 ∨ r.status = 500 ∨ r.status = 503) →
      handle_dex_req (r :: rest) s = handle_dex_req rest (s + 60)) ∧
    ((r.status = 501 ∨ r.status = 502) →
      handle_dex_req (r :: rest) s = .raised r.status s) ∧
    (r.status = 429 → get_gecko_price (r :: rest) s = get_gecko_price rest (s + 60)) ∧
    ((r.status = 500 ∨ r.status = 503) →
      get_gecko_price (r :: rest) s = .parsed r (s + 60)) ∧
    ((r.status = 501 ∨ r.status = 502) →
      get_gecko_price (r :: rest) s = .raised r.status s) := by
  obtain ⟨c⟩ := r
  refine ⟨?_, ?_, ?_, ?_, ?_, ?_, ?_, ?_⟩ <;>
    rintro (rfl | rfl | rfl | rfl | rfl) <;> rfl

/-- Witness for C9: a 502 from the Sui source is retried after a 60-second
sleep. -/
theorem C9_retry_policy_witness :
    handle_sui_req [{ status := 502 }] 0 = handle_sui_req [] (0 + 60) :=
  (C9_retry_policy { status := 502 } [] 0).1 (by norm_num)

/-! ## C7: best-pair selection -/

theorem pymaxAux_eq_or_mem (key : DexPair → ℚ) :
    ∀ (l : List DexPair) (b : DexPair), pymaxAux key b l = b ∨ pymaxAux key b l ∈ l := by
  intro l
  induction l with
  | nil => intro b; exact Or.inl rfl
  | cons x xs ih =>
    intro b
    rw [pymaxAux]
    rcases ih (if key x > key b then x else b) with h | h
    · rw [h]
      split
      · exact Or.inr (List.mem_cons_self _ _)
      · exact Or.inl rfl
    · exact Or.inr (List.mem_cons_of_mem _ h)

theorem pymaxAux_ge (key : DexPair → ℚ) :
    ∀ (l : List DexPair) (b : DexPair),
      key b ≤ key (pymaxAux key b l) ∧ ∀ q ∈ l, key q ≤ key (pymaxAux key b l) := by
  intro l
  induction l with
  | nil => intro b; exact ⟨le_refl _, by simp⟩
  | cons x xs ih =>
    intro b
    rw [pymaxAux]
    obtain ⟨h1, h2⟩ := ih (if key x > key b then x else b)
    refine ⟨?_, ?_⟩
    · have hb : key b ≤ key (if key x > key b then x else b) := by
        split
        · next hc => exact le_of_lt hc
        · exact le_refl _
      exact le_trans hb h1
    · intro q hq
      rcases List.mem_cons.mp hq with rfl | hq
      · have hx : key q ≤ key (if key q > key b then q else b) := by
          split
          · exact le_refl _
          · next hc => exact le_of_not_lt hc
        exact le_trans hx h1
      · exact h2 q hq

/-- C7: for a nonempty candidate list (the filtered pairs whose base token
matches the address) with nonnegative reported liquidities, the selected
pair is a candidate; when all candidates report zero liquidity it maximizes
24h volume; when any candidate has nonzero liquidity the selected pair
maximizes liquidity and its liquidity is strictly positive (so a
zero-liquidity pair is never selected over one with positive liquidity,
regardless of volume). -/
theorem C7_best_pair (pair_info : List DexPair) (address : String)
    (p : DexPair) (ps : List DexPair)
    (hfl : pair_info.filter (fun x => is_ca x address) = p :: ps)
    (hnn : ∀ q ∈ p :: ps, 0 ≤ get_liquidity_usd q) :
    ∃ best, find_token pair_info address = some best ∧ best ∈ p :: ps ∧
      ((∀ q ∈ p :: ps, get_liquidity_usd q = 0) →
        ∀ q ∈ p :: ps, get_volume_usd q ≤ get_volume_usd best) ∧
      ((∃ q ∈ p :: ps, get_liquidity_usd q ≠ 0) →
        (∀ q ∈ p :: ps, get_liquidity_usd q ≤ get_liquidity_usd best) ∧
          0 < get_liquidity_usd best) := by
  have hml_mem : pymaxAux get_liquidity_usd p ps ∈ p :: ps := by
    rcases pymaxAux_eq_or_mem get_liquidity_usd ps p with h | h
    · rw [h]; exact List.mem_cons_self _ _
    · exact List.mem_cons_of_mem _ h
  obtain ⟨hl1, hl2⟩ := pymaxAux_ge get_liquidity_usd ps p
  unfold find_token
  rw [hfl]
  by_cases hz : get_liquidity_usd (pymaxAux get_liquidity_usd p ps) = 0
  · refine ⟨pymaxAux get_volume_usd p ps, by simp [hz], ?_, ?_, ?_⟩
    · rcases pymaxAux_eq_or_mem get_volume_usd ps p with h | h
      · rw [h]; exact List.mem_cons_self _ _
      · exact List.mem_cons_of_mem _ h
    · intro _ q hq
      obtain ⟨hv1, hv2⟩ := pymaxAux_ge get_volume_usd ps p
      rcases List.mem_cons.mp hq with rfl | hq
      · exact hv1
      · exact hv2 q hq
    · rintro ⟨q, hq, hqne⟩
      have hle : get_liquidity_usd q ≤ 0 := by
        rcases List.mem_cons.mp hq with rfl | hq
        · exact hz ▸ hl1
        · exact hz ▸ hl2 q hq
      exact absurd (le_antisymm hle (hnn q hq)) hqne
  · refine ⟨pymaxAux get_liquidity_usd p ps, by simp [hz], hml_mem, ?_, ?_⟩
    · intro hall
      exact absurd (hall _ hml_mem) hz
    · intro _
      refine ⟨?_, ?_⟩
      · intro q hq
        rcases List.mem_cons.mp hq with rfl | hq
        · exact hl1
        · exact hl2 q hq
      · exact lt_of_le_of_ne (hnn _ hml_mem) (Ne.symm hz)

/-- Witness for C7: two candidate pairs both with zero liquidity and
volumes 1000 and 5000; the selection facts hold for this concrete input. -/
theorem C7_best_pair_witness :
    ∃ best,
      find_token
        [{ baseTokenAddress := "t", liquidity_usd := some 0, volume_h24 := some 1000 },
         { baseTokenAddress := "t", liquidity_usd := some 0, volume_h24 := some 5000 }] "t" =
        some best ∧
      best ∈ ({ baseTokenAddress := "t", liquidity_usd := some 0, volume_h24 := some 1000 } ::
        [{ baseTokenAddress := "t", liquidity_usd := some 0, volume_h24 := some 5000 }]) ∧
      ((∀ q ∈ ({ baseTokenAddress := "t", liquidity_usd := some 0, volume_h24 := some 1000 } ::
          [{ baseTokenAddress := "t", liquidity_usd := some 0, volume_h24 := some 5000 }]),
          get_liquidity_usd q = 0) →
        ∀ q ∈ ({ baseTokenAddress := "t", liquidity_usd := some 0, volume_h24 := some 1000 } ::
          [{ baseTokenAddress := "t", liquidity_usd := some 0, volume_h24 := some 5000 }]),
          get_volume_usd q ≤ get_volume_usd best) ∧
      ((∃ q ∈ ({ baseTokenAddress := "t", liquidity_usd := some 0, volume_h24 := some 1000 } ::
          [{ baseTokenAddress := "t", liquidity_usd := some 0, volume_h24 := some 5000 }]),
          get_liquidity_usd q ≠ 0) →
        (∀ q ∈ ({ baseTokenAddress := "t", liquidity_usd := some 0, volume_h24 := some 1000 } ::
          [{ baseTokenAddress := "t", liquidity_usd := some 0, volume_h24 := some 5000 }]),
          get_liquidity_usd q ≤ get_liquidity_usd best) ∧
          0 < get_liquidity_usd best) :=
  C7_best_pair
    [{ baseTokenAddress := "t", liquidity_usd := some 0, volume_h24 := some 1000 },
     { baseTokenAddress := "t", liquidity_usd := some 0, volume_h24 := some 5000 }] "t"
    { baseTokenAddress := "t", liquidity_usd := some 0, volume_h24 := some 1000 }
    [{ baseTokenAddress := "t", liquidity_usd := some 0, volume_h24 := some 5000 }]
    (by simp [is_ca])
    (by norm_num [get_liquidity_usd])

/-! ## C6: change-detection filter -/

theorem nativeFlag_ok_true_iff (resp prev : List (String × List (String × String)))
    (c w : String) :
    nativeFlag resp prev c w = .ok true ↔
      lookup2 prev c w = none ∨ lookup2 prev c w = some "" ∨
      ∃ v cur, lookup2 prev c w = some v ∧ v ≠ "" ∧
        lookup2 resp c w = some cur ∧ cur ≠ v := by
  unfold nativeFlag
  cases hp : lookup2 prev c w with
  | none => simp
  | some v =>
    by_cases hv : v = ""
    · subst hv; simp
    · simp only [hv, if_false, if_neg hv]
      cases hr : alookup resp c with
      | none => simp [lookup2, hr, alookup, hv]
      | some rc =>
        cases hw : alookup rc w with
        | none => simp [lookup2, hr, hw, hv]
        | some cur =>
          simp [lookup2, hr, hw, hv]

theorem flagsFor_mem (resp prev : List (String × List (String × String)))
    (c w : String) :
    ∀ (ws fs : List String), flagsFor resp prev c ws = .ok fs →
      (w ∈ fs ↔ w ∈ ws ∧ nativeFlag resp prev c w = .ok true) := by
  intro ws
  induction ws with
  | nil =>
    intro fs h
    rw [flagsFor] at h
    obtain rfl : ([] : List String) = fs := Except.ok.inj h
    simp
  | cons w0 ws ih =>
    intro fs h
    rw [flagsFor] at h
    cases hb : nativeFlag resp prev c w0 with
    | error e => rw [hb] at h; simp [Bind.bind, Except.bind] at h
    | ok b =>
      rw [hb] at h
      cases hr : flagsFor resp prev c ws with
      | error e => rw [hr] at h; simp [Bind.bind, Except.bind] at h
      | ok rest =>
        rw [hr] at h
        simp only [Bind.bind, Except.bind] at h
        obtain rfl : (if b then w0 :: rest else rest) = fs := Except.ok.inj h
        have hrest := ih rest hr
        by_cases hw0 : w = w0
        · subst hw0
          cases b with
          | true => simp [hb]
          | false =>
            simp only [if_false, Bool.false_eq_true]
            rw [hrest]
            constructor
            · rintro ⟨-, hf⟩
              rw [hf] at hb
              exact absurd (Except.ok.inj hb) (by simp)
            · rintro ⟨-, hf⟩
              rw [hf] at hb
              exact absurd (Except.ok.inj hb) (by simp)
        · cases b with
          | true => simp [hw0, hrest]
          | false => simp [hw0, hrest]

theorem foldlM_flag_lookup (resp prev : List (String × List (String × String)))
    (lw : List String) (c : String) :
    ∀ (chains : List String) (acc out : List (String × List String)),
      (chains.foldlM
        (fun acc chain => do
          let fs ← flagsFor resp prev chain lw
          pure (aset acc chain fs)) acc) = .ok out →
      ∀ fs, alookup out c = some fs →
        (alookup acc c = some fs ∧ c ∉ chains) ∨
        (c ∈ chains ∧ flagsFor resp prev c lw = .ok fs) := by
  intro chains
  induction chains with
  | nil =>
    intro acc out h fs hfs
    rw [List.foldlM_nil] at h
    obtain rfl : acc = out := Except.ok.inj h
    exact Or.inl ⟨hfs, by simp⟩
  | cons ch chs ih =>
    intro acc out h fs hfs
    rw [List.foldlM_cons] at h
    cases hf : flagsFor resp prev ch lw with
    | error e =>
      rw [hf] at h
      simp [Bind.bind, Except.bind] at h
    | ok fs' =>
      rw [hf] at h
      simp only [Bind.bind, Except.bind, Pure.pure, Except.pure] at h
      rcases ih (aset acc ch fs') out h fs hfs with ⟨hlk, hnin⟩ | ⟨hin, hflag⟩
      · rw [alookup_aset] at hlk
        by_cases hc : ch = c
        · subst hc
          rw [if_pos rfl] at hlk
          obtain rfl : fs' = fs := Option.some.inj hlk
          exact Or.inr ⟨List.mem_cons_self _ _, hf⟩
        · rw [if_neg hc] at hlk
          refine Or.inl ⟨hlk, ?_⟩
          intro hmem
          rcases List.mem_cons.mp hmem with hm | hm
          · exact hc hm.symm
          · exact hnin hm
      · exact Or.inr ⟨List.mem_cons_of_mem _ hin, hflag⟩

/-- C6 amended: a wallet is flagged for a chain if and only if it is absent
from the previous snapshot for that chain, OR its stored previous value is
the falsy empty string (even when identical to the current value), OR its
current raw-string value differs from the previous one; only the CONFIGURED
wallet addresses are lower-cased before comparison (snapshot keys are used
as stored), and a wallet with a truthy previous value but no entry in the
fresh response raises `KeyError` rather than being flagged. -/
theorem C6_flag_policy (resp prev : List (String × List (String × String)))
    (c w : String) :
    (nativeFlag resp prev c w = .ok true ↔
      lookup2 prev c w = none ∨ lookup2 prev c w = some "" ∨
      ∃ v cur, lookup2 prev c w = some v ∧ v ≠ "" ∧
        lookup2 resp c w = some cur ∧ cur ≠ v) ∧
    (∀ (wallets chains : List String) (out : List (String × List String))
        (fs : List String),
      get_native_change_evm wallets chains resp prev = .ok out →
      alookup out c = some fs →
      (w ∈ fs ↔ w ∈ wallets.map String.toLower ∧
        nativeFlag resp prev c w = .ok true)) := by
  refine ⟨nativeFlag_ok_true_iff resp prev c w, ?_⟩
  intro wallets chains out fs hout hfs
  rcases foldlM_flag_lookup resp prev (wallets.map String.toLower) c chains [] out
      hout fs hfs with ⟨hlk, -⟩ | ⟨-, hflag⟩
  · simp [alookup] at hlk
  · exact flagsFor_mem resp prev c w (wallets.map String.toLower) fs hflag

/-- Counterexample to C6: wallet `"w"` is present in the previous snapshot
for chain `"c"` with value `""`, and the current value is the identical
string `""`, yet the wallet IS flagged (Python `not ""` is truthy), so "a
wallet present with an identical string value is never flagged" is false. -/
theorem C6_cex_empty_string_reflagged :
    get_native_change_evm ["w"] ["c"] [("c", [("w", "")])] [("c", [("w", "")])] =
      .ok [("c", ["w"])] ∧
    lookup2 [("c", [("w", "")])] "c" "w" = some "" := by
  have hw : "w".toLower = "w" := by
    show String.map Char.toLower "w" = "w"
    rw [String.map_eq]; decide
  constructor
  · simp [get_native_change_evm, flagsFor, nativeFlag, lookup2, alookup, aset, hw,
      Bind.bind, Except.bind, Pure.pure, Except.pure, List.foldlM]
  · simp [lookup2, alookup]

/-- Witness for C6: one configured wallet `"W"` (upper case), one chain,
previous value `"1"` and current value `"2"`; the flag-list membership
equivalence holds at this concrete input. -/
theorem C6_flag_policy_witness :
    "w" ∈ ["w"] ↔ "w" ∈ ["W"].map String.toLower ∧
      nativeFlag [("c", [("w", "2")])] [("c", [("w", "1")])] "c" "w" = .ok true := by
  have hW : "W".toLower = "w" := by
    show String.map Char.toLower "W" = "w"
    rw [String.map_eq]; decide
  refine (C6_flag_policy [("c", [("w", "2")])] [("c", [("w", "1")])] "c" "w").2
    ["W"] ["c"] [("c", ["w"])] ["w"] ?_ ?_
  · simp [get_native_change_evm, flagsFor, nativeFlag, lookup2, alookup, aset, hW,
      Bind.bind, Except.bind, Pure.pure, Except.pure, List.foldlM]
  · simp [alookup]

/-! ## C8: snapshot round-trip -/

/-- The decimal-string layer is lossless: parsing the serialized form of a
`Decimal` value (a rational whose reduced denominator divides a power of
ten) recovers it exactly. -/
theorem decParse_decSerialize {q : ℚ} (h : IsDecimal q) :
    decParse (decSerialize q) = q := by
  have hd0 : ((q.den : ℚ)) ≠ 0 := by
    exact_mod_cast q.den_nz
  have h10 : ((10 : ℚ)) ^ q.den ≠ 0 := pow_ne_zero _ (by norm_num)
  have hc : (((10 ^ q.den / q.den : ℕ)) : ℚ) = (10 : ℚ) ^ q.den / (q.den : ℚ) := by
    rw [Nat.cast_div h hd0]
    push_cast
    ring
  unfold decParse decSerialize
  rw [Int.cast_mul, Int.cast_natCast, hc]
  rw [show (q.num : ℚ) * ((10 : ℚ) ^ q.den / (q.den : ℚ)) / (10 : ℚ) ^ q.den
      = (q.num : ℚ) / (q.den : ℚ) by field_simp; ring]
  exact Rat.num_div_den q

/-- Per-entry round-trip: serializing a `TokenInfo` to its JSON dict and
loading it back is the identity, provided every decimal field is a
`Decimal` value and the dynamic `dex` attribute is absent (as it always is
for entries that reach `save_balances`). -/
theorem tokenFromJson_to_json_dict {t : TokenInfo}
    (hp : IsDecimal t.price) (hl : IsDecimal t.liquidity)
    (hm : IsDecimal t.market_cap) (hb : ∀ wb ∈ t.balances, IsDecimal wb.2)
    (hdex : t.dex = none) :
    tokenFromJson t.to_json_dict = t := by
  obtain ⟨addr, nm, sym, ch, bals, pr, liq, mc, lnk, dxa⟩ := t
  simp only at hp hl hm hb hdex
  subst hdex
  unfold tokenFromJson TokenInfo.to_json_dict
  simp only [TokenInfo.mk.injEq]
  refine ⟨trivial, trivial, trivial, trivial, ?_, decParse_decSerialize hp,
    decParse_decSerialize hl, decParse_decSerialize hm, trivial, trivial⟩
  rw [List.map_map]
  induction bals with
  | nil => rfl
  | cons wb rest ih =>
    rw [List.map_cons]
    have h1 : IsDecimal wb.2 := hb wb (List.mem_cons_self _ _)
    have h2 := ih (fun x hx => hb x (List.mem_cons_of_mem _ hx))
    simp only [Function.comp, decParse_decSerialize h1] at *
    rw [h2]

/-- C8: writing a ledger with `save_balances` and reading it back with
`load_previous_balance` is the identity, for ledgers whose price,
liquidity, market_cap and wallet balances are `Decimal` values (finite
decimals) and whose entries carry no dynamic `dex` attribute. -/
theorem C8_roundtrip (bal : List (String × TokenInfo))
    (h : ∀ kt ∈ bal, IsDecimal kt.2.price ∧ IsDecimal kt.2.liquidity ∧
      IsDecimal kt.2.market_cap ∧ (∀ wb ∈ kt.2.balances, IsDecimal wb.2) ∧
      kt.2.dex = none) :
    load_previous_balance (save_balances bal) = bal := by
  unfold load_previous_balance save_balances
  rw [List.map_map]
  induction bal with
  | nil => rfl
  | cons kt rest ih =>
    obtain ⟨h1, h2, h3, h4, h5⟩ := h kt (List.mem_cons_self _ _)
    have hrest := ih (fun x hx => h x (List.mem_cons_of_mem _ hx))
    rw [List.map_cons, hrest]
    simp only [Function.comp]
    rw [tokenFromJson_to_json_dict h1 h2 h3 h4 h5]

/-- Witness for C8: a concrete two-entry ledger with integer decimal
values survives the round-trip bit-exactly. -/
theorem C8_roundtrip_witness :
    load_previous_balance (save_balances
      [("a", { address := "a", name := "x", symbol := "X", chain := "solana",
               balances := [("w", 100)], price := 3, liquidity := 1000,
               market_cap := 90000 }),
       ("b", { address := "b", name := "y", symbol := "Y", chain := "sui",
               balances := [("u", 7), ("v", 2)], price := 0 })]) =
      [("a", { address := "a", name := "x", symbol := "X", chain := "solana",
               balances := [("w", 100)], price := 3, liquidity := 1000,
               market_cap := 90000 }),
       ("b", { address := "b", name := "y", symbol := "Y", chain := "sui",
               balances := [("u", 7), ("v", 2)], price := 0 })] := by
  refine C8_roundtrip _ ?_
  intro kt hkt
  rcases List.mem_cons.mp hkt with rfl | hkt
  · refine ⟨?_, ?_, ?_, ?_, rfl⟩ <;>
      norm_num [IsDecimal, Rat.den_ofNat]
  · rcases List.mem_cons.mp hkt with rfl | hkt
    · refine ⟨?_, ?_, ?_, ?_, rfl⟩ <;>
        norm_num [IsDecimal, Rat.den_ofNat]
    · exact absurd hkt (List.not_mem_nil _)

/-! ## C5: zero-balance entries in the merged ledger -/

theorem foldl_preserve {α β : Type} (P : β → Prop) (f : β → α → β)
    (hf : ∀ b a, P b → P (f b a)) :
    ∀ (l : List α) (b : β), P b → P (l.foldl f b) := by
  intro l
  induction l with
  | nil => intro b hb; exact hb
  | cons x xs ih => intro b hb; exact ih (f b x) (hf b x hb)

theorem allNonzeroBal_aset {l : List (String × ℚ)} {w : String} {v : ℚ}
    (h : allNonzeroBal l) (hv : v ≠ 0) : allNonzeroBal (aset l w v) := by
  intro wb hwb
  rcases aset_mem hwb with hm | rfl
  · exact h wb hm
  · exact hv

theorem exists_nonzero_of_allNonzero {l : List (String × ℚ)} (hne : l ≠ [])
    (hall : allNonzeroBal l) : ∃ wb ∈ l, wb.2 ≠ 0 := by
  cases l with
  | nil => exact absurd rfl hne
  | cons wb rest => exact ⟨wb, List.mem_cons_self _ _, hall wb (List.mem_cons_self _ _)⟩

theorem goodE_aset {carried acc : List (String × TokenInfo)} {k : String}
    {info : TokenInfo}
    (hacc : ∀ x ∈ acc, GoodE carried x)
    (hinfo : GoodE carried (k, info)) :
    ∀ x ∈ aset acc k info, GoodE carried x := by
  intro x hx
  rcases aset_mem hx with hm | rfl
  · exact hacc x hm
  · exact hinfo

theorem addSolToken_good {carried : List (String × TokenInfo)} (wallet : String)
    (t : SolTokenData) {acc : List (String × TokenInfo)}
    (hacc : ∀ x ∈ acc, GoodE carried x) :
    ∀ x ∈ addSolToken wallet acc t, GoodE carried x := by
  unfold addSolToken
  by_cases hamt : t.amount = 0
  · rw [if_pos hamt]; exact hacc
  · rw [if_neg hamt]
    cases hlk : alookup acc t.mint with
    | none =>
      exact goodE_aset hacc
        (Or.inr (Or.inr ⟨(wallet, t.amount), List.mem_cons_self _ _, hamt⟩))
    | some info =>
      exact goodE_aset hacc
        (Or.inr (Or.inr ⟨(wallet, t.amount), mem_aset_self _ _ _, hamt⟩))

theorem addSolNative_good {carried : List (String × TokenInfo)} (wallet : String)
    (nat : ℚ) {acc : List (String × TokenInfo)}
    (hacc : ∀ x ∈ acc, GoodE carried x) :
    ∀ x ∈ addSolNative wallet nat acc, GoodE carried x := by
  unfold addSolNative
  cases hlk : alookup acc SOL_ADDR with
  | none => exact goodE_aset hacc (Or.inl rfl)
  | some info => exact goodE_aset hacc (Or.inl rfl)

theorem addEvmToken_good {carried : List (String × TokenInfo)} (wallet chain : String)
    (t : EvmTokenData) {acc : List (String × TokenInfo)}
    (hacc : ∀ x ∈ acc, GoodE carried x) :
    ∀ x ∈ addEvmToken wallet chain acc t, GoodE carried x := by
  unfold addEvmToken
  by_cases hb : t.balance_formatted = 0
  · rw [if_pos hb]; exact hacc
  · rw [if_neg hb]
    cases hlk : alookup acc (if t.native_token then chain else t.token_address) with
    | none =>
      exact goodE_aset hacc
        (Or.inr (Or.inr ⟨(wallet, t.balance_formatted), List.mem_cons_self _ _, hb⟩))
    | some info =>
      exact goodE_aset hacc
        (Or.inr (Or.inr ⟨(wallet, t.balance_formatted), mem_aset_self _ _ _, hb⟩))

theorem carry_old_good (old : List (String × TokenInfo))
    (ur : List (String × List String)) :
    ∀ x ∈ carry_old old ur, GoodE (carry_old old ur) x :=
  fun _ hx => Or.inr (Or.inl hx)

theorem carry_old_nonempty (old : List (String × TokenInfo))
    (ur : List (String × List String)) :
    ∀ x ∈ carry_old old ur, x.2.balances ≠ [] := by
  have gen : ∀ (l acc : List (String × TokenInfo)),
      (∀ x ∈ acc, x.2.balances ≠ []) →
      ∀ x ∈ l.foldl
        (fun b kt =>
          let t := delete_flagged ur kt.2
          if t.balances ≠ [] ∧ (alookup ur t.chain).isSome
          then aset b t.address t else b) acc,
        x.2.balances ≠ [] := by
    intro l
    induction l with
    | nil => intro acc hacc; exact hacc
    | cons kt l ih =>
      intro acc hacc
      rw [List.foldl_cons]
      refine ih _ ?_
      show ∀ x ∈ (if (delete_flagged ur kt.2).balances ≠ [] ∧
          (alookup ur (delete_flagged ur kt.2).chain).isSome
          then aset acc (delete_flagged ur kt.2).address (delete_flagged ur kt.2)
          else acc), x.2.balances ≠ []
      split
      · next hcond =>
        intro x hx
        rcases aset_mem hx with hm | rfl
        · exact hacc x hm
        · exact hcond.1
      · exact hacc
  unfold carry_old
  exact gen old [] (by simp)

theorem get_token_balances_good (old : List (String × TokenInfo))
    (ur : List (String × List String)) (sol : List (String × SolWalletData))
    (evm : List ((String × String) × List EvmTokenData)) :
    ∀ x ∈ get_token_balances old ur sol evm, GoodE (carry_old old ur) x := by
  unfold get_token_balances
  have h1 : ∀ x ∈ sol.foldl processSolWallet (carry_old old ur),
      GoodE (carry_old old ur) x := by
    refine foldl_preserve (fun b => ∀ x ∈ b, GoodE (carry_old old ur) x)
      processSolWallet ?_ sol _ (carry_old_good old ur)
    intro b wr hb
    unfold processSolWallet
    exact addSolNative_good wr.1 wr.2.nativeBalance
      (foldl_preserve (fun b => ∀ x ∈ b, GoodE (carry_old old ur) x) (addSolToken wr.1)
        (fun b t hb => addSolToken_good wr.1 t hb) wr.2.tokens b hb)
  refine foldl_preserve (fun b => ∀ x ∈ b, GoodE (carry_old old ur) x) _ ?_ evm _ h1
  intro b wcd hb
  exact foldl_preserve (fun b => ∀ x ∈ b, GoodE (carry_old old ur) x)
    (addEvmToken wcd.1.1 wcd.1.2)
    (fun b t hb => addEvmToken_good wcd.1.1 wcd.1.2 t hb) wcd.2 b hb

theorem addSuiCoin_good (wallet : String) (c : SuiCoinData)
    {acc : List (String × TokenInfo)}
    (hacc : ∀ x ∈ acc, x.2.balances ≠ [] ∧ allNonzeroBal x.2.balances) :
    ∀ x ∈ addSuiCoin wallet acc c,
      x.2.balances ≠ [] ∧ allNonzeroBal x.2.balances := by
  unfold addSuiCoin
  by_cases hb : sui_coin_balance c = 0
  · rw [if_pos hb]; exact hacc
  · rw [if_neg hb]
    cases hlk : alookup acc c.coinType with
    | none =>
      intro x hx
      rcases aset_mem hx with hm | rfl
      · exact hacc x hm
      · refine ⟨by simp, ?_⟩
        intro wb hwb
        rcases List.mem_cons.mp hwb with rfl | hwb
        · exact hb
        · simp at hwb
    | some info =>
      intro x hx
      rcases aset_mem hx with hm | rfl
      · exact hacc x hm
      · obtain ⟨hne, hall⟩ := hacc (c.coinType, info) (alookup_mem hlk)
        exact ⟨aset_ne_nil _ _ _, allNonzeroBal_aset hall hb⟩

theorem get_sui_balances_nonzero (responses : List (String × List SuiCoinData)) :
    ∀ x ∈ get_sui_balances responses,
      x.2.balances ≠ [] ∧ allNonzeroBal x.2.balances := by
  unfold get_sui_balances
  refine foldl_preserve
    (fun b : List (String × TokenInfo) =>
      ∀ x ∈ b, x.2.balances ≠ [] ∧ allNonzeroBal x.2.balances)
    (fun acc wr => wr.2.foldl (addSuiCoin wr.1) acc) ?_
    responses [] (by simp)
  intro b wr hb
  exact foldl_preserve
    (fun b => ∀ x ∈ b, x.2.balances ≠ [] ∧ allNonzeroBal x.2.balances)
    (addSuiCoin wr.1) (fun b c hb => addSuiCoin_good wr.1 c hb) wr.2 b hb

theorem merge_all_mem {sui tok : List (String × TokenInfo)} {x : String × TokenInfo}
    (hx : x ∈ merge_all sui tok) : x ∈ sui ∨ x ∈ tok := by
  have gen : ∀ (l acc : List (String × TokenInfo)) (x : String × TokenInfo),
      x ∈ l.foldl (fun a kt => aset a kt.1 kt.2) acc → x ∈ acc ∨ x ∈ l := by
    intro l
    induction l with
    | nil => intro acc x hx; exact Or.inl hx
    | cons kt l ih =>
      intro acc x hx
      rw [List.foldl_cons] at hx
      rcases ih _ x hx with h | h
      · rcases aset_mem h with h | rfl
        · exact Or.inl h
        · exact Or.inr (List.mem_cons_self _ _)
      · exact Or.inr (List.mem_cons_of_mem _ h)
  exact gen tok sui x hx

/-- C5 amended: in the merged Solana + Sui + EVM ledger, every entry that is
not the Solana native sentinel and is not one of the carried-forward
entries (the output of the carry pass in `get_token_balances`, copied
as-is) has at least one nonzero wallet balance — zero-balance token
holdings are dropped at aggregation time; the Solana native entry is
written without a zero check; and each carried-forward entry is only
guaranteed a nonempty balances dict (second conjunct). -/
theorem C5_no_zero_entries (old : List (String × TokenInfo))
    (ur : List (String × List String))
    (sol : List (String × SolWalletData))
    (evm : List ((String × String) × List EvmTokenData))
    (sui : List (String × List SuiCoinData)) :
    (∀ (a : String) (t : TokenInfo),
      (a, t) ∈ merge_all (get_sui_balances sui) (get_token_balances old ur sol evm) →
      a = SOL_ADDR ∨ (a, t) ∈ carry_old old ur ∨
        ∃ wb ∈ t.balances, wb.2 ≠ 0) ∧
    ∀ x ∈ carry_old old ur, x.2.balances ≠ [] := by
  constructor
  · intro a t hmem
    rcases merge_all_mem hmem with hs | ht
    · obtain ⟨hne, hall⟩ := get_sui_balances_nonzero sui _ hs
      exact Or.inr (Or.inr (exists_nonzero_of_allNonzero hne hall))
    · exact get_token_balances_good old ur sol evm _ ht
  · exact carry_old_nonempty old ur

/-- Counterexample to C5: a Solana wallet with no tokens and native balance
zero produces a merged ledger whose only entry (the wrapped-SOL sentinel)
has all wallet balances zero — an all-zero entry IS retained. -/
theorem C5_cex_sol_native_zero :
    ¬ ∀ (a : String) (t : TokenInfo),
        (a, t) ∈ merge_all []
          (get_token_balances [] [] [("w", { tokens := [], nativeBalance := 0 })] []) →
        ∃ wb ∈ t.balances, wb.2 ≠ 0 := by
  intro h
  have hm : merge_all []
      (get_token_balances [] [] [("w", { tokens := [], nativeBalance := 0 })] []) =
      [(SOL_ADDR, { address := SOL_ADDR, name := "Solana", symbol := "SOL",
                    chain := "solana", balances := [("w", 0)] })] := rfl
  obtain ⟨wb, hwb, hnz⟩ := h SOL_ADDR
    { address := SOL_ADDR, name := "Solana", symbol := "SOL",
      chain := "solana", balances := [("w", 0)] }
    (by rw [hm]; exact List.mem_cons_self _ _)
  rcases List.mem_cons.mp hwb with rfl | hwb
  · exact hnz rfl
  · simp at hwb

/-- Witness for C5 amended: a fresh Solana token entry with balance 5 in the
merged ledger satisfies the disjunction (through its nonzero balance). -/
theorem C5_no_zero_entries_witness :
    "m" = SOL_ADDR ∨
    ("m", ({ address := "m", name := "x", symbol := "X", chain := "solana",
             balances := [("w", 5)] } : TokenInfo)) ∈
      carry_old [] [] ∨
    ∃ wb ∈ [(("w" : String), (5 : ℚ))], wb.2 ≠ 0 :=
  (C5_no_zero_entries [] [] 
    [("w", { tokens := [{ mint := "m", name := "x", symbol := "X", amount := 5 }],
             nativeBalance := 7 })] [] []).1
    "m"
    { address := "m", name := "x", symbol := "X", chain := "solana",
      balances := [("w", 5)] }
    (by
      have hms : ¬ ("m" : String) = "so11111111111111111111111111111111111111112" := by
        decide
      norm_num [merge_all, get_token_balances, get_sui_balances, carry_old,
        processSolWallet, addSolToken, addSolNative, aset, alookup, SOL_ADDR, hms])
